import Mathlib

/-!
Shallow embedding of the espada signup wizard and data-access layer.

The definitions below are translated from `src/components/SignupFlow.tsx`
(and its `src/src/components/SignupFlow.tsx` variant) and from
`src/lib/database.ts`.  Machine behaviour that depends on the external
database boundary is modelled by passing the relevant table contents as
explicit arguments.
-/

/-- The three UI modes (`AuthMode` in SignupFlow.tsx). -/
inductive AuthMode
  | welcome
  | login
  | signup
deriving DecidableEq, Repr

/-- The nine wizard steps (`SignupStep` in SignupFlow.tsx). -/
inductive SignupStep
  | email
  | password
  | confirmPassword
  | name
  | gender
  | age
  | country
  | username
  | interests
deriving DecidableEq, BEq, Repr

/-- The accumulated form state (`AuthData` in SignupFlow.tsx). -/
structure AuthData where
  email : String
  password : String
  confirmPassword : String
  firstName : String
  lastName : String
  gender : String
  age : String
  country : String
  username : String
  interests : List String
deriving DecidableEq, Repr

/-- The initial/reset value of `authData` in SignupFlow.tsx. -/
def emptyAuthData : AuthData :=
  { email := "", password := "", confirmPassword := "", firstName := "", lastName := "",
    gender := "", age := "", country := "", username := "", interests := [] }

/-- The component state relevant to the sequencer: `authMode`, `signupStep`,
`usernameAvailable`, `checkingUsername`, `isLoading` and `authData`. -/
structure SignupModel where
  authMode : AuthMode
  signupStep : SignupStep
  usernameAvailable : Option Bool
  checkingUsername : Bool
  isLoading : Bool
  authData : AuthData
deriving DecidableEq, Repr

/-- JavaScript whitespace accepted by `parseInt` (the WhiteSpace / LineTerminator
characters that matter for ASCII input). -/
def jsWhitespace (c : Char) : Bool :=
  c == ' ' || c == '\t' || c == '\n' || c == '\r' || c == '\x0b' || c == '\x0c'

/-- Value of a decimal digit, if `c` is one. -/
def decDigitVal (c : Char) : Option Nat :=
  if '0' ≤ c ∧ c ≤ '9' then some (c.toNat - '0'.toNat) else none

/-- Value of a hexadecimal digit, if `c` is one. -/
def hexDigitVal (c : Char) : Option Nat :=
  if '0' ≤ c ∧ c ≤ '9' then some (c.toNat - '0'.toNat)
  else if 'a' ≤ c ∧ c ≤ 'f' then some (c.toNat - 'a'.toNat + 10)
  else if 'A' ≤ c ∧ c ≤ 'F' then some (c.toNat - 'A'.toNat + 10)
  else none

/-- Accumulate the value of the longest digit prefix (digits read by `dv`). -/
def digitRunVal (dv : Char → Option Nat) (radix : Nat) : Nat → List Char → Nat
  | acc, [] => acc
  | acc, c :: cs =>
    match dv c with
    | none => acc
    | some d => digitRunVal dv radix (acc * radix + d) cs

/-- Value of the longest nonempty digit prefix; `none` when it is empty
(JS `parseInt` returns NaN in that case). -/
def digitRun (dv : Char → Option Nat) (radix : Nat) : List Char → Option Nat
  | [] => none
  | c :: cs =>
    match dv c with
    | none => none
    | some d => some (digitRunVal dv radix d cs)

/-- After whitespace and sign: an optional `0x`/`0X` prefix selects radix 16,
otherwise radix 10 (ECMAScript `parseInt` with radix undefined). -/
def jsParseIntBody : List Char → Option Nat
  | '0' :: 'x' :: rest => digitRun hexDigitVal 16 rest
  | '0' :: 'X' :: rest => digitRun hexDigitVal 16 rest
  | l => digitRun decDigitVal 10 l

/-- JS `parseInt(s)` on a character list: strip whitespace, read an optional
sign, then the longest digit prefix; `none` models NaN. -/
def jsParseIntChars (l : List Char) : Option Int :=
  let t := l.dropWhile jsWhitespace
  match t with
  | '-' :: rest => (jsParseIntBody rest).map (fun n => -(n : Int))
  | '+' :: rest => (jsParseIntBody rest).map (fun n => (n : Int))
  | _ => (jsParseIntBody t).map (fun n => (n : Int))

/-- JS `parseInt(s)` (radix argument absent), as used by `canProceedToNext`. -/
def jsParseInt (s : String) : Option Int :=
  jsParseIntChars s.data

/-- The age-step condition of `canProceedToNext`:
`age.length > 0 && parseInt(age) >= 13 && parseInt(age) <= 120`
(comparisons with NaN are false). -/
def ageOk (age : String) : Bool :=
  decide (0 < age.length) &&
    match jsParseInt age with
    | some n => decide (13 ≤ n) && decide (n ≤ 120)
    | none => false

/-- Function `canProceedToNext` from SignupFlow.tsx, one case per step. -/
def canProceedToNext (st : SignupModel) : Bool :=
  match st.signupStep with
  | .email => st.authData.email.contains '@' && decide (0 < st.authData.email.length)
  | .password => decide (8 ≤ st.authData.password.length)
  | .confirmPassword =>
      (st.authData.confirmPassword == st.authData.password) &&
        decide (0 < st.authData.confirmPassword.length)
  | .name => decide (0 < st.authData.firstName.length) && decide (0 < st.authData.lastName.length)
  | .gender => decide (0 < st.authData.gender.length)
  | .age => ageOk st.authData.age
  | .country => decide (0 < st.authData.country.length)
  | .username =>
      decide (3 ≤ st.authData.username.length) && (st.usernameAvailable == some true)
  | .interests => decide (0 < st.authData.interests.length)

example : jsParseInt "13" = some 13 := by decide
example : jsParseInt "  25abc" = some 25 := by decide
example : jsParseInt "-7" = some (-7) := by decide
example : jsParseInt "0x14" = some 20 := by decide
example : jsParseInt "abc" = none := by decide
example : jsParseInt "" = none := by decide
example : ageOk "13" = true := by decide
example : ageOk "120" = true := by decide
example : ageOk "12" = false := by decide
example : ageOk "121" = false := by decide

/-- The fixed step order, the `steps` array in SignupFlow.tsx. -/
def stepsList : List SignupStep :=
  [.email, .password, .confirmPassword, .name, .gender, .age, .country, .username, .interests]

/-- The payload of the external `signUp` call made on the final advance:
`signUp(email, password, { firstName, lastName, username, gender, age,
country, interests })` — nine fields, `confirmPassword` is not sent. -/
structure SignUpCall where
  email : String
  password : String
  firstName : String
  lastName : String
  username : String
  gender : String
  age : String
  country : String
  interests : List String
deriving DecidableEq, Repr

/-- The argument record assembled from `authData` for the `signUp` call. -/
def mkSignUpCall (d : AuthData) : SignUpCall :=
  { email := d.email, password := d.password, firstName := d.firstName,
    lastName := d.lastName, username := d.username, gender := d.gender,
    age := d.age, country := d.country, interests := d.interests }

/-- The outcome of the external `signUp` call: success, a returned error
value, or a thrown exception (caught by the `catch` branch). -/
inductive SignUpResult
  | ok
  | err (msg : String)
  | exn (msg : String)
deriving DecidableEq, Repr

/-- Function `resetSignup` from SignupFlow.tsx: first step, cleared tri-state,
cleared checking flag, empty `authData`. -/
def resetSignup (st : SignupModel) : SignupModel :=
  { st with
    signupStep := .email, usernameAvailable := none,
    checkingUsername := false, authData := emptyAuthData }

/-- Function `goToNextStep` from SignupFlow.tsx.  When not on the last step it moves
to `steps[currentIndex + 1]` and makes no external call; on the last step
it issues exactly one `signUp` call (returned in the second component) and,
on success, runs `setAuthMode('welcome')` followed by `resetSignup()`; on a
returned error or a thrown exception only `isLoading` is reset. -/
def goToNextStep (st : SignupModel) (result : SignUpResult) :
    SignupModel × List SignUpCall :=
  let currentIndex := stepsList.indexOf st.signupStep
  if currentIndex < stepsList.length - 1 then
    ({ st with signupStep := stepsList.getD (currentIndex + 1) st.signupStep }, [])
  else
    match result with
    | .ok =>
        (resetSignup { st with authMode := .welcome, isLoading := false },
         [mkSignUpCall st.authData])
    | .err _ => ({ st with isLoading := false }, [mkSignUpCall st.authData])
    | .exn _ => ({ st with isLoading := false }, [mkSignUpCall st.authData])

/-- Function `goToPreviousStep` from SignupFlow.tsx: `steps[currentIndex - 1]` when
`currentIndex > 0`, otherwise `setAuthMode('welcome')`. -/
def goToPreviousStep (st : SignupModel) : SignupModel :=
  let currentIndex := stepsList.indexOf st.signupStep
  if 0 < currentIndex then
    { st with signupStep := stepsList.getD (currentIndex - 1) st.signupStep }
  else
    { st with authMode := .welcome }

/-- JS `toLowerCase()` on the character contents (ASCII case folding,
which is all the repository's username comparisons rely on). -/
def jsToLower (s : String) : String :=
  ⟨s.data.map Char.toLower⟩

/-- The mock availability predicate of the demo variant
(`src/src/components/SignupFlow.tsx`):
`!['admin', 'user', 'test'].includes(username.toLowerCase())`. -/
def mockAvailable (username : String) : Bool :=
  !(["admin", "user", "test"].contains (jsToLower username))

/-- State of the username-debounce machinery: the current field value, the
pending debounce timer (the value captured by the effect closure), the
queries in flight, the log of issued queries, and the two pieces of
component state the check writes (`usernameAvailable`, `checkingUsername`). -/
structure DebounceState where
  signupStep : SignupStep
  username : String
  pending : Option String
  inFlight : List String
  issued : List String
  usernameAvailable : Option Bool
  checkingUsername : Bool
deriving DecidableEq, Repr

/-- Events of the debounce machinery: a keystroke (the username-field
`onChange`), the debounce timer firing, and the completion of the `i`-th
in-flight query.  Completion order is arbitrary because the query is an
asynchronous external call with no ordering guarantee. -/
inductive UiEvent
  | keystroke (v : String)
  | timerFire
  | resolve (i : Nat)
deriving DecidableEq, Repr

/-- A keystroke re-runs the effect with dependencies
`[authData.username, signupStep]`: the cleanup clears the previous pending
timer and, if on the username step with a non-empty value, a new 500-unit
timer is armed for the new value.  In-flight queries are not cancelled. -/
def applyKeystroke (st : DebounceState) (v : String) : DebounceState :=
  { st with
    username := v,
    pending := if st.signupStep == .username && v != "" then some v else none }

/-- Start of `checkUsernameAvailability(v)`: values shorter than 3 reset the
tri-state to null and issue no query; otherwise `checkingUsername` is set
and a query for `v` goes in flight. -/
def startCheck (st : DebounceState) (v : String) : DebounceState :=
  if v.length < 3 then { st with usernameAvailable := none }
  else
    { st with
      checkingUsername := true, inFlight := st.inFlight ++ [v],
      issued := st.issued ++ [v] }

/-- The debounce timer firing calls `checkUsernameAvailability` with the
captured value, if a timer is pending. -/
def applyTimerFire (st : DebounceState) : DebounceState :=
  match st.pending with
  | none => st
  | some v => startCheck { st with pending := none } v

/-- Completion of the `i`-th in-flight query: its result is written to
`usernameAvailable` unconditionally (the code has no staleness guard), and
the `finally` block clears `checkingUsername`. -/
def applyResolve (st : DebounceState) (i : Nat) : DebounceState :=
  match st.inFlight.get? i with
  | none => st
  | some v =>
      { st with
        inFlight := st.inFlight.eraseIdx i,
        usernameAvailable := some (mockAvailable v),
        checkingUsername := false }

/-- One event of the debounce machinery. -/
def stepEvent (st : DebounceState) : UiEvent → DebounceState
  | .keystroke v => applyKeystroke st v
  | .timerFire => applyTimerFire st
  | .resolve i => applyResolve st i

/-- Run a sequence of events. -/
def runEvents (st : DebounceState) : List UiEvent → DebounceState
  | [] => st
  | e :: es => runEvents (stepEvent st e) es

/-- Initial state on entering the username step with an empty field. -/
def debounceInit : DebounceState :=
  { signupStep := .username, username := "", pending := none, inFlight := [],
    issued := [], usernameAvailable := none, checkingUsername := false }

/-- An event trace in which the query for "admin" is still in flight when
the user types "newname"; the "newname" query resolves first, then the
stale "admin" result arrives. -/
def staleTrace : List UiEvent :=
  [.keystroke "admin", .timerFire, .keystroke "newname", .timerFire,
   .resolve 1, .resolve 0]

example :
    (runEvents debounceInit
      [.keystroke "u", .keystroke "us", .keystroke "user1",
       .timerFire, .resolve 0]).issued = ["user1"] := by decide

example : (runEvents debounceInit staleTrace).usernameAvailable = some false := by decide

/-- An error value returned by the database boundary; only the `code`
field is inspected by the repository's code. -/
structure DbError where
  code : String
deriving DecidableEq, Repr

/-- The shape of a `.single()` response from the boundary: at most one data
row and an optional error. -/
structure SingleResponse (α : Type) where
  data : Option α
  error : Option DbError
deriving DecidableEq, Repr

/-- The boundary behaviour of
`supabase.from('profiles').select('username').eq('username', key).single()`
over a table of stored usernames (unique per the `profiles` schema): the
matching row when one exists, otherwise error code PGRST116 (no rows). -/
def singleByUsername (table : List String) (key : String) : SingleResponse String :=
  match table.find? (fun r => r == key) with
  | some r => { data := some r, error := none }
  | none => { data := none, error := some { code := "PGRST116" } }

/-- The result record of `profileOperations.checkUsernameAvailability`. -/
structure AvailabilityResult where
  available : Option Bool
  error : Option DbError
deriving DecidableEq, Repr

/-- The branch structure of `profileOperations.checkUsernameAvailability`
applied to the response: PGRST116 means available, a data row means taken,
anything else is unknown with the error passed through. -/
def classifyAvailability (r : SingleResponse String) : AvailabilityResult :=
  if r.error.any (fun e => e.code == "PGRST116") then
    { available := some true, error := none }
  else if r.data.isSome then
    { available := some false, error := none }
  else
    { available := none, error := r.error }

/-- Function `profileOperations.checkUsernameAvailability` from `src/lib/database.ts`:
it queries with `username.toLowerCase()` and classifies the response. -/
def checkUsernameAvailability (table : List String) (username : String) :
    AvailabilityResult :=
  classifyAvailability (singleByUsername table (jsToLower username))

/-- A follow edge as stored in the `follows` table:
`(follower_id, following_id)`. -/
@[reducible] def FollowEdge : Type := String × String

/-- Constraint violations reported by an insert into the `follows` table:
its DDL (the follows migration staged in `src/src/components/Dashboard.tsx`)
declares `UNIQUE(follower_id, following_id)` and
`CHECK (follower_id != following_id)`. -/
inductive FollowInsertError
  | duplicateEdge
  | selfFollow
deriving DecidableEq, Repr

/-- Insertion into the `follows` table under its declared constraints
(`CHECK (follower_id != following_id)` and
`UNIQUE(follower_id, following_id)`): a violating insert fails and leaves
the table unchanged; otherwise exactly the one new edge is added. -/
def insertFollowEdge (edges : List FollowEdge) (f t : String) :
    Except FollowInsertError (List FollowEdge) :=
  if f = t then .error .selfFollow
  else if (f, t) ∈ edges then .error .duplicateEdge
  else .ok (edges ++ [(f, t)])

/-- The `{ data, error }` value returned by `followOperations.followUser`
(after the insert), together with the resulting table contents. -/
structure FollowOutcome where
  edges : List FollowEdge
  data : Option FollowEdge
  error : Option FollowInsertError
deriving DecidableEq, Repr

/-- Function `followOperations.followUser` from `src/lib/database.ts`: throws
`'Not authenticated'` (the `Except.error` case) when there is no current
user; otherwise inserts `{ follower_id: user.id, following_id }` and
returns the boundary's `{ data, error }`. -/
def followUser (user : Option String) (edges : List FollowEdge)
    (followingId : String) : Except String FollowOutcome :=
  match user with
  | none => .error "Not authenticated"
  | some uid =>
    match insertFollowEdge edges uid followingId with
    | .ok es => .ok { edges := es, data := some (uid, followingId), error := none }
    | .error e => .ok { edges := edges, data := none, error := some e }

/-- Function `followOperations.unfollowUser` from `src/lib/database.ts`: throws
`'Not authenticated'` when there is no current user; otherwise deletes the
rows with `follower_id = user.id` and `following_id = followingId`. -/
def unfollowUser (user : Option String) (edges : List FollowEdge)
    (followingId : String) : Except String (List FollowEdge) :=
  match user with
  | none => .error "Not authenticated"
  | some uid => .ok (edges.filter (fun e => !(e.1 == uid && e.2 == followingId)))

/-- The boundary behaviour of
`supabase.from('follows').select('id').eq('follower_id', uid)
.eq('following_id', fid).single()`: a row when the edge exists, otherwise
error code PGRST116. -/
def singleFollowEdge (edges : List FollowEdge) (uid fid : String) :
    SingleResponse FollowEdge :=
  if (uid, fid) ∈ edges then { data := some (uid, fid), error := none }
  else { data := none, error := some { code := "PGRST116" } }

/-- The result record of `followOperations.isFollowing`; `queried` records
whether a database query was issued at all. -/
structure IsFollowingResult where
  isFollowing : Bool
  error : Option DbError
  queried : Bool
deriving DecidableEq, Repr

/-- The result mapping of `followOperations.isFollowing`:
`isFollowing: !!data` and
`error: error && error.code !== 'PGRST116' ? error : null`. -/
def classifyIsFollowing (r : SingleResponse FollowEdge) : Bool × Option DbError :=
  (r.data.isSome,
   match r.error with
   | some e => if e.code == "PGRST116" then none else some e
   | none => none)

/-- Function `followOperations.isFollowing` from `src/lib/database.ts`: with no
current user it returns `{ isFollowing: false, error: null }` before any
query; otherwise it issues the single-row lookup and classifies it. -/
def isFollowing (user : Option String) (edges : List FollowEdge)
    (followingId : String) : IsFollowingResult :=
  match user with
  | none => { isFollowing := false, error := none, queried := false }
  | some uid =>
    let c := classifyIsFollowing (singleFollowEdge edges uid followingId)
    { isFollowing := c.1, error := c.2, queried := true }

/-- Function `handleInterestToggle` from SignupFlow.tsx: remove the id when present
(`filter(id => id !== interestId)`), append it otherwise. -/
def handleInterestToggle (interests : List String) (interestId : String) :
    List String :=
  if interests.contains interestId then
    interests.filter (fun id => id != interestId)
  else
    interests ++ [interestId]

example : checkUsernameAvailability ["admin"] "Admin" =
    { available := some false, error := none } := by decide
example : checkUsernameAvailability ["admin"] "newname" =
    { available := some true, error := none } := by decide
example : handleInterestToggle ["music", "anime"] "music" = ["anime"] := by decide
example : handleInterestToggle ["anime"] "music" = ["anime", "music"] := by decide

/-- A fixed signup-mode state used to instantiate universally quantified
theorems at concrete inputs. -/
def probeAt (step : SignupStep) (d : AuthData) : SignupModel :=
  { authMode := .signup, signupStep := step, usernameAvailable := none,
    checkingUsername := false, isLoading := false, authData := d }

theorem jsParseInt_nil : jsParseInt ⟨[]⟩ = none := rfl

theorem jsParseInt_length_pos {s : String} {n : Int}
    (h : jsParseInt s = some n) : 0 < s.length := by
  rcases s with ⟨l⟩
  cases l with
  | nil => rw [jsParseInt_nil] at h; exact Option.noConfusion h
  | cons c cs => exact Nat.succ_pos _

theorem ageOk_iff (a : String) :
    ageOk a = true ↔ ∃ n : Int, jsParseInt a = some n ∧ 13 ≤ n ∧ n ≤ 120 := by
  unfold ageOk
  cases hp : jsParseInt a with
  | none => simp [hp]
  | some n =>
    have hl : 0 < a.length := jsParseInt_length_pos hp
    simp [hp, hl]

/-- C1: on the age step, `canProceedToNext` returns true exactly when JS
`parseInt` yields a value in [13, 120] on the age field; a string on which
`parseInt` yields NaN is rejected, "13" and "120" are accepted, and "12" and
"121" are rejected. -/
theorem age_step_gate (st : SignupModel) (h : st.signupStep = .age) :
    (canProceedToNext st = true ↔
        ∃ n : Int, jsParseInt st.authData.age = some n ∧ 13 ≤ n ∧ n ≤ 120) ∧
    (∀ a : String, jsParseInt a = none → ageOk a = false) ∧
    ageOk "13" = true ∧ ageOk "120" = true ∧
    ageOk "12" = false ∧ ageOk "121" = false := by
  rcases st with ⟨m, step, ua, cu, il, d⟩
  have h' : step = SignupStep.age := h
  subst h'
  refine ⟨ageOk_iff d.age, ?_, by decide, by decide, by decide, by decide⟩
  intro a ha
  unfold ageOk
  rw [ha]
  simp

/-- Witness for C1: the age-step gate is open at the concrete state whose
age field is "25". -/
theorem age_step_gate_witness :
    canProceedToNext (probeAt .age { emptyAuthData with age := "25" }) = true :=
  (age_step_gate (probeAt .age { emptyAuthData with age := "25" }) rfl).1.mpr
    ⟨25, by decide, by decide, by decide⟩

/-- C3: the step is one of the nine enumerated values, advance from a
non-final step moves exactly one position forward in the fixed order,
retreat from a non-first step moves exactly one position backward (mode
unchanged in both), retreat from the first step (email) switches the mode
to welcome rather than moving to a prior step, and advance from the last
step (interests) goes to Welcome on success and stays on the same step
otherwise — so every transition is adjacent or to Welcome. -/
theorem step_transitions_adjacent :
    (∀ s : SignupStep, s ∈ stepsList) ∧
    (∀ (st : SignupModel) (r : SignUpResult), st.signupStep ≠ .interests →
      stepsList.indexOf (goToNextStep st r).1.signupStep
          = stepsList.indexOf st.signupStep + 1 ∧
        (goToNextStep st r).1.authMode = st.authMode) ∧
    (∀ st : SignupModel, st.signupStep ≠ .email →
      stepsList.indexOf (goToPreviousStep st).signupStep + 1
          = stepsList.indexOf st.signupStep ∧
        (goToPreviousStep st).authMode = st.authMode) ∧
    (∀ st : SignupModel, st.signupStep = .email →
      (goToPreviousStep st).authMode = .welcome ∧
        (goToPreviousStep st).signupStep = .email) ∧
    (∀ (st : SignupModel) (m : String), st.signupStep = .interests →
      (goToNextStep st .ok).1.authMode = .welcome ∧
        (goToNextStep st .ok).1.signupStep = .email ∧
        (goToNextStep st (.err m)).1.signupStep = st.signupStep ∧
        (goToNextStep st (.exn m)).1.signupStep = st.signupStep) := by
  refine ⟨?_, ?_, ?_, ?_, ?_⟩
  · intro s; cases s <;> simp [stepsList]
  · intro st r h
    rcases st with ⟨m, step, ua, cu, il, d⟩
    cases step <;> first
      | exact absurd rfl h
      | exact ⟨rfl, rfl⟩
  · intro st h
    rcases st with ⟨m, step, ua, cu, il, d⟩
    cases step <;> first
      | exact absurd rfl h
      | exact ⟨rfl, rfl⟩
  · intro st h
    rcases st with ⟨m, step, ua, cu, il, d⟩
    have h' : step = SignupStep.email := h
    subst h'
    exact ⟨rfl, rfl⟩
  · intro st m h
    rcases st with ⟨md, step, ua, cu, il, d⟩
    have h' : step = SignupStep.interests := h
    subst h'
    exact ⟨rfl, rfl, rfl, rfl⟩

/-- Witness for C3: advancing from the age step lands on the adjacent step,
and retreating from the email step lands on welcome. -/
theorem step_transitions_adjacent_witness :
    (stepsList.indexOf (goToNextStep (probeAt .age emptyAuthData) .ok).1.signupStep
        = stepsList.indexOf (probeAt .age emptyAuthData).signupStep + 1 ∧
      (goToNextStep (probeAt .age emptyAuthData) .ok).1.authMode
        = (probeAt .age emptyAuthData).authMode) ∧
    (goToPreviousStep (probeAt .email emptyAuthData)).authMode = .welcome ∧
      (goToPreviousStep (probeAt .email emptyAuthData)).signupStep = .email :=
  ⟨step_transitions_adjacent.2.1 (probeAt .age emptyAuthData) .ok (by decide),
   step_transitions_adjacent.2.2.2.1 (probeAt .email emptyAuthData) rfl⟩

/-- C4: advancing from the interests step with at least one interest selected
makes exactly one signUp call carrying all nine accumulated fields, and on a
successful result the state is welcome mode, first step, empty fields, and
cleared availability tri-state. -/
theorem submit_on_last_step (st : SignupModel) (h : st.signupStep = .interests)
    (hi : st.authData.interests ≠ []) :
    (goToNextStep st .ok).2 = [mkSignUpCall st.authData] ∧
    (mkSignUpCall st.authData).email = st.authData.email ∧
    (mkSignUpCall st.authData).password = st.authData.password ∧
    (mkSignUpCall st.authData).firstName = st.authData.firstName ∧
    (mkSignUpCall st.authData).lastName = st.authData.lastName ∧
    (mkSignUpCall st.authData).username = st.authData.username ∧
    (mkSignUpCall st.authData).gender = st.authData.gender ∧
    (mkSignUpCall st.authData).age = st.authData.age ∧
    (mkSignUpCall st.authData).country = st.authData.country ∧
    (mkSignUpCall st.authData).interests = st.authData.interests ∧
    (goToNextStep st .ok).1.authMode = .welcome ∧
    (goToNextStep st .ok).1.signupStep = .email ∧
    (goToNextStep st .ok).1.authData = emptyAuthData ∧
    (goToNextStep st .ok).1.usernameAvailable = none := by
  rcases st with ⟨m, step, ua, cu, il, d⟩
  have h' : step = SignupStep.interests := h
  subst h'
  exact ⟨rfl, rfl, rfl, rfl, rfl, rfl, rfl, rfl, rfl, rfl, rfl, rfl, rfl, rfl⟩

/-- Witness for C4 at a fully filled concrete state. -/
theorem submit_on_last_step_witness :
    (goToNextStep (probeAt .interests { emptyAuthData with interests := ["music"] }) .ok).2
        = [mkSignUpCall { emptyAuthData with interests := ["music"] }] ∧
    (goToNextStep (probeAt .interests { emptyAuthData with interests := ["music"] }) .ok).1.authMode
        = .welcome :=
  ⟨(submit_on_last_step (probeAt .interests { emptyAuthData with interests := ["music"] })
      rfl (by decide)).1,
   (submit_on_last_step (probeAt .interests { emptyAuthData with interests := ["music"] })
      rfl (by decide)).2.2.2.2.2.2.2.2.2.2.1⟩

/-- C7: when the signUp call made on the final advance returns an error or
throws, the accumulated form fields, the step and the mode are all
unchanged. -/
theorem submit_error_preserves_state (st : SignupModel) (e : String)
    (h : st.signupStep = .interests) :
    ((goToNextStep st (.err e)).1.authData = st.authData ∧
      (goToNextStep st (.err e)).1.signupStep = st.signupStep ∧
      (goToNextStep st (.err e)).1.authMode = st.authMode) ∧
    ((goToNextStep st (.exn e)).1.authData = st.authData ∧
      (goToNextStep st (.exn e)).1.signupStep = st.signupStep ∧
      (goToNextStep st (.exn e)).1.authMode = st.authMode) := by
  rcases st with ⟨m, step, ua, cu, il, d⟩
  have h' : step = SignupStep.interests := h
  subst h'
  exact ⟨⟨rfl, rfl, rfl⟩, ⟨rfl, rfl, rfl⟩⟩

/-- Witness for C7 at a concrete state and error message. -/
theorem submit_error_preserves_state_witness :
    (goToNextStep (probeAt .interests { emptyAuthData with interests := ["music"] })
        (.err "network failure")).1.authData
      = (probeAt .interests { emptyAuthData with interests := ["music"] }).authData :=
  (submit_error_preserves_state
    (probeAt .interests { emptyAuthData with interests := ["music"] })
    "network failure" rfl).1.1

/-- C2 is refuted by the code: in `staleTrace` the debounce cancels only the
pending timer, never a query already in flight, so when the superseded query
for "admin" resolves after the newer query for "newname" has already
resolved, the stale result is written over it.  The final state shows the
field holding the available name "newname" while `usernameAvailable` is
`some false` — the stale "admin" verdict. -/
theorem stale_result_overwrites :
    (runEvents debounceInit staleTrace).username = "newname" ∧
    (runEvents debounceInit staleTrace).issued = ["admin", "newname"] ∧
    (runEvents debounceInit staleTrace).inFlight = [] ∧
    mockAvailable "newname" = true ∧
    (runEvents debounceInit staleTrace).usernameAvailable = some false := by
  decide

theorem checkAvail_of_mem {table : List String} {u : String}
    (h : jsToLower u ∈ table) :
    checkUsernameAvailability table u
        = { available := some false, error := none } := by
  unfold checkUsernameAvailability singleByUsername
  cases hf : table.find? (fun r => r == jsToLower u) with
  | none =>
    have := List.find?_eq_none.mp hf _ h
    simp at this
  | some r => simp [classifyAvailability]

theorem checkAvail_of_not_mem {table : List String} {u : String}
    (h : jsToLower u ∉ table) :
    checkUsernameAvailability table u
        = { available := some true, error := none } := by
  unfold checkUsernameAvailability singleByUsername
  cases hf : table.find? (fun r => r == jsToLower u) with
  | none => simp [classifyAvailability]
  | some r =>
    have hr : r = jsToLower u := by simpa using List.find?_some hf
    exact absurd (hr ▸ List.mem_of_find?_eq_some hf) h

/-- C5: `checkUsernameAvailability` looks the name up lower-cased: it
reports taken (false) exactly when the lower-cased name has a row and
available (true) exactly when it has none; a response carrying any error
other than PGRST116 and no row yields the unknown tri-state with the error
passed through; the present name "admin" (also queried as "Admin") yields
false and an absent name yields true. -/
theorem check_username_availability_spec :
    (∀ (table : List String) (u : String),
      ((checkUsernameAvailability table u).available = some false ↔
          jsToLower u ∈ table) ∧
      ((checkUsernameAvailability table u).available = some true ↔
          jsToLower u ∉ table)) ∧
    (∀ e : DbError, e.code ≠ "PGRST116" →
      classifyAvailability { data := none, error := some e }
          = { available := none, error := some e }) ∧
    checkUsernameAvailability ["admin"] "admin"
        = { available := some false, error := none } ∧
    checkUsernameAvailability ["admin"] "Admin"
        = { available := some false, error := none } ∧
    checkUsernameAvailability ["admin"] "newname"
        = { available := some true, error := none } := by
  refine ⟨?_, ?_, by decide, by decide, by decide⟩
  · intro table u
    by_cases h : jsToLower u ∈ table
    · rw [checkAvail_of_mem h]; simp [h]
    · rw [checkAvail_of_not_mem h]; simp [h]
  · intro e he
    unfold classifyAvailability
    simp [he]

/-- Witness for C5: the error classification at a concrete non-PGRST116
error, and the availability verdict at a concrete absent name. -/
theorem check_username_availability_spec_witness :
    classifyAvailability { data := none, error := some { code := "500" } }
        = { available := none, error := some { code := "500" } } ∧
    ((checkUsernameAvailability ["admin"] "bob").available = some true ↔
        jsToLower "bob" ∉ ["admin"]) :=
  ⟨check_username_availability_spec.2.1 { code := "500" } (by decide),
   (check_username_availability_spec.1 ["admin"] "bob").2⟩

/-- C6: `followUser` and `unfollowUser` throw 'Not authenticated' without a
caller; an authenticated first follow adds exactly the one edge
(caller, target); repeating the same follow fails with a duplicate-edge
error leaving the table unchanged, and following one's own id fails with a
self-follow error (the table constraints per the follows migration's
UNIQUE and CHECK clauses, see `insertFollowEdge`). -/
theorem follow_unfollow_contract (edges : List FollowEdge) (uid fid : String)
    (hself : uid ≠ fid) (hdup : (uid, fid) ∉ edges) :
    followUser none edges fid = .error "Not authenticated" ∧
    unfollowUser none edges fid = .error "Not authenticated" ∧
    followUser (some uid) edges fid
        = .ok { edges := edges ++ [(uid, fid)], data := some (uid, fid),
                error := none } ∧
    followUser (some uid) (edges ++ [(uid, fid)]) fid
        = .ok { edges := edges ++ [(uid, fid)], data := none,
                error := some .duplicateEdge } ∧
    followUser (some uid) edges uid
        = .ok { edges := edges, data := none, error := some .selfFollow } := by
  refine ⟨rfl, rfl, ?_, ?_, ?_⟩
  · unfold followUser insertFollowEdge
    simp [hself, hdup]
  · unfold followUser insertFollowEdge
    simp [hself]
  · unfold followUser insertFollowEdge
    simp

/-- Witness for C6 on the empty table with distinct concrete users. -/
theorem follow_unfollow_contract_witness :
    followUser (some "alice") [] "bob"
        = .ok { edges := [("alice", "bob")], data := some ("alice", "bob"),
                error := none } ∧
    followUser (some "alice") [("alice", "bob")] "bob"
        = .ok { edges := [("alice", "bob")], data := none,
                error := some .duplicateEdge } ∧
    followUser (some "alice") [] "alice"
        = .ok { edges := [], data := none, error := some .selfFollow } :=
  ⟨(follow_unfollow_contract [] "alice" "bob" (by decide) (by decide)).2.2.1,
   (follow_unfollow_contract [] "alice" "bob" (by decide) (by decide)).2.2.2.1,
   (follow_unfollow_contract [] "alice" "bob" (by decide) (by decide)).2.2.2.2⟩

/-- C8: with an authenticated caller, `isFollowing` reports exactly whether
the (caller, target) edge exists with no error surfaced, and the no-rows
response (code PGRST116, no data row) classifies to isFollowing = false with
error = null rather than an error. -/
theorem is_following_spec :
    (∀ (uid fid : String) (edges : List FollowEdge),
      (isFollowing (some uid) edges fid).isFollowing
          = decide ((uid, fid) ∈ edges) ∧
      (isFollowing (some uid) edges fid).error = none) ∧
    (∀ r : SingleResponse FollowEdge,
      r.data = none → r.error = some { code := "PGRST116" } →
      classifyIsFollowing r = (false, none)) := by
  constructor
  · intro uid fid edges
    unfold isFollowing singleFollowEdge
    by_cases h : (uid, fid) ∈ edges
    · simp [h, classifyIsFollowing]
    · simp [h, classifyIsFollowing]
  · intro r h1 h2
    unfold classifyIsFollowing
    rw [h1, h2]
    simp

/-- Witness for C8: the PGRST116 classification at a concrete response, and
the lookup verdict on a concrete one-edge table. -/
theorem is_following_spec_witness :
    classifyIsFollowing { data := none, error := some { code := "PGRST116" } }
        = (false, none) ∧
    (isFollowing (some "alice") [("alice", "bob")] "bob").isFollowing
        = decide (("alice", "bob") ∈ [("alice", "bob")]) :=
  ⟨is_following_spec.2 { data := none, error := some { code := "PGRST116" } } rfl rfl,
   (is_following_spec.1 "alice" "bob" [("alice", "bob")]).1⟩

/-- C9: with no authenticated user, `isFollowing` returns
isFollowing = false with error = null, issuing no query and throwing
nothing, whereas `followUser` and `unfollowUser` both throw
'Not authenticated'. -/
theorem is_following_unauthenticated (edges : List FollowEdge) (fid : String) :
    isFollowing none edges fid
        = { isFollowing := false, error := none, queried := false } ∧
    followUser none edges fid = .error "Not authenticated" ∧
    unfollowUser none edges fid = .error "Not authenticated" :=
  ⟨rfl, rfl, rfl⟩

/-- C10: on a duplicate-free interests list, the toggle removes a present id
and appends an absent one, the result is duplicate-free, and toggling the
same id twice restores the original list up to membership. -/
theorem toggle_of_mem {l : List String} {x : String} (h : x ∈ l) :
    handleInterestToggle l x = l.filter (fun id => id != x) := by
  unfold handleInterestToggle
  rw [if_pos (List.elem_iff.mpr h)]

theorem toggle_of_not_mem {l : List String} {x : String} (h : x ∉ l) :
    handleInterestToggle l x = l ++ [x] := by
  unfold handleInterestToggle
  rw [if_neg (fun hc => h (List.elem_iff.mp hc))]

theorem interest_toggle_spec (l : List String) (x : String) (hnd : l.Nodup) :
    (x ∈ l → ∀ y, y ∈ handleInterestToggle l x ↔ y ∈ l ∧ y ≠ x) ∧
    (x ∉ l → handleInterestToggle l x = l ++ [x]) ∧
    (handleInterestToggle l x).Nodup ∧
    (∀ y, y ∈ handleInterestToggle (handleInterestToggle l x) x ↔ y ∈ l) := by
  refine ⟨?_, toggle_of_not_mem, ?_, ?_⟩
  · intro h y
    rw [toggle_of_mem h]
    simp [List.mem_filter]
  · by_cases h : x ∈ l
    · rw [toggle_of_mem h]
      exact hnd.filter _
    · rw [toggle_of_not_mem h]
      simp [List.nodup_append, hnd, h]
  · intro y
    by_cases h : x ∈ l
    · rw [toggle_of_mem h]
      have hx2 : x ∉ l.filter (fun id => id != x) := by simp [List.mem_filter]
      rw [toggle_of_not_mem hx2]
      simp [List.mem_filter]
      constructor
      · rintro (⟨hyl, _⟩ | rfl)
        · exact hyl
        · exact h
      · intro hyl
        by_cases hyx : y = x
        · exact Or.inr hyx
        · exact Or.inl ⟨hyl, hyx⟩
    · rw [toggle_of_not_mem h]
      have hx2 : x ∈ l ++ [x] := by simp
      rw [toggle_of_mem hx2]
      simp [List.mem_filter]
      intro hy hyx
      exact h (hyx ▸ hy)

/-- Witness for C10 on a concrete duplicate-free list. -/
theorem interest_toggle_spec_witness :
    handleInterestToggle ["anime", "books"] "music"
        = ["anime", "books"] ++ ["music"] :=
  (interest_toggle_spec ["anime", "books"] "music" (by decide)).2.1 (by decide)
